import Mathlib

/-!
Shallow embedding of `stubby.py` (Masstrix/stubby): a stub-file generator that
walks a Python package tree and writes one `.pyi` text file per leaf module.

The embedding models:
  * Python string operations used by the source (`startswith`, `removeprefix`,
    `split('.')`, `str(bool)`) as structurally recursive functions on `List Char`
    so that concrete instances reduce inside the kernel;
  * the filesystem as a record of a directory list and an association list of
    file paths (component lists, mirroring `os.path.join`) to file contents;
  * a module as the data the renderer reads from it (`__name__`,
    `str(__package__)`, and the namespace as name/member pairs), and a member
    as the results of the `inspect` predicates and attribute reads the
    renderer performs on it;
  * the package tree walked by `StubGenerator._generate_stubs` as an inductive
    tree whose `pkg` nodes correspond to `pkgutil.iter_modules` enumerations.
    Dotted import names (`importlib.import_module(modinfo.name)`)
    are resolved through the tree: each child node carries its loaded module.
  * a second, exception-aware copy of the generator (suffix `E`) in the
    `Except` monad, where `importlib.import_module` and `inspect.signature`
    may fail, used to settle the error-propagation claims.
-/

/-- Tests whether `p` is a prefix of `s`, character by character. -/
def charsPre : List Char → List Char → Bool
  | [], _ => true
  | _ :: _, [] => false
  | a :: as, b :: bs => if a = b then charsPre as bs else false

/-- Python `s.startswith(p)`. -/
def pyStarts (s p : String) : Bool := charsPre p.data s.data

/-- Python `s.removeprefix(p)` (line 38): drops `p` from the front of `s` when
it is present, otherwise returns `s` unchanged. -/
def pyStripPfx (s p : String) : String :=
  if charsPre p.data s.data then String.mk (s.data.drop p.data.length) else s

/-- Helper for `pySplitDot`: splits the remaining characters at the separator,
with `acc` holding the (reversed) characters of the current field. -/
def splitCharAux (sep : Char) : List Char → List Char → List String
  | [], acc => [String.mk acc.reverse]
  | c :: rest, acc =>
    if c = sep then String.mk acc.reverse :: splitCharAux sep rest []
    else splitCharAux sep rest (c :: acc)

/-- Python `s.split('.')` (line 39). As in Python, `"".split('.') == ['']`. -/
def pySplitDot (s : String) : List String := splitCharAux '.' s.data []

/-- Python `str` applied to a `bool` (interpolated at line 68). -/
def pyBoolStr (b : Bool) : String := if b then "True" else "False"

/-- Lexicographic comparison of strings by code point, the order Python's
`sorted` puts member names in. -/
def charListLe : List Char → List Char → Bool
  | [], _ => true
  | _ :: _, [] => false
  | a :: as, b :: bs =>
    if a.toNat < b.toNat then true
    else if b.toNat < a.toNat then false
    else charListLe as bs

/-- Filesystem paths are lists of components; `os.path.join(a, *bs, c)` is
modelled as list concatenation (path components produced by the source are
dotted-name segments and file names, which contain no separator). -/
abbrev FilePath' := List String

/-- Membership of a path in a list of paths. -/
def pathMem (p : List String) : List (List String) → Bool
  | [] => false
  | q :: rest => if q = p then true else pathMem p rest

/-- Tests whether `root` is a path prefix of `p` (so `p` lies inside the
subtree rooted at `root`; a path is inside its own subtree). -/
def pathUnder (root p : List String) : Bool :=
  match root, p with
  | [], _ => true
  | _ :: _, [] => false
  | a :: as, b :: bs => if a = b then pathUnder as bs else false

/-- The filesystem: the set of directories that exist and the files with
their contents. -/
structure FS where
  dirs : List (List String)
  files : List (List String × String)
deriving DecidableEq

/-- Python `os.path.exists(p)` (lines 42, 86): true when `p` is an existing
directory or an existing file. -/
def FS.pathExists (fs : FS) (p : List String) : Bool :=
  pathMem p fs.dirs || pathMem p (fs.files.map Prod.fst)

/-- Python `shutil.rmtree(p)` (line 87): removes the directory `p` and
everything inside it. -/
def FS.rmtree (fs : FS) (p : List String) : FS :=
  ⟨fs.dirs.filter (fun d => !(pathUnder p d)),
   fs.files.filter (fun f => !(pathUnder p f.1))⟩

/-- Adds a directory to the directory list when it is not already present. -/
def addDir (ds : List (List String)) (q : List String) : List (List String) :=
  if pathMem q ds then ds else ds ++ [q]

/-- Python `os.makedirs(p)` (line 43): creates `p` together with every missing
ancestor directory, shortest first. -/
def FS.makedirs (fs : FS) (p : List String) : FS :=
  ⟨p.inits.foldl addDir fs.dirs, fs.files⟩

/-- Updates an association list of files at path `p`, replacing an existing
entry in place or appending a new one. -/
def writeAssoc : List (List String × String) → List String → String → List (List String × String)
  | [], p, c => [(p, c)]
  | (q, d) :: rest, p, c =>
    if q = p then (p, c) :: rest else (q, d) :: writeAssoc rest p c

/-- Python `open(p, 'w')` followed by writing `c` (lines 45-70): the file at
`p` ends up containing exactly `c`. -/
def FS.writeFile (fs : FS) (p : List String) (c : String) : FS :=
  ⟨fs.dirs, writeAssoc fs.files p c⟩

/-- Content of the file at path `p`, when one exists. -/
def lookupAssoc : List (List String × String) → List String → Option String
  | [], _ => none
  | (q, d) :: rest, p => if q = p then some d else lookupAssoc rest p

/-- Content of the file at path `p` in the filesystem, when one exists. -/
def FS.lookupFile (fs : FS) (p : List String) : Option String :=
  lookupAssoc fs.files p

/-- A module member as `ModuleStubGenerator.generate` observes it: the results
of the `inspect` predicates and of the attribute reads performed on the
member value (lines 52-68). -/
structure PyMember where
  /-- `inspect.isclass(member)` (line 52). -/
  isclass : Bool
  /-- `inspect.isfunction(member)` (line 54). -/
  isfunction : Bool
  /-- `inspect.ismodule(member)` (line 57). -/
  ismodule : Bool
  /-- `inspect.isbuiltin(member)` (line 59). -/
  isbuiltin : Bool
  /-- `member.__name__`, read in the module branch (line 58). -/
  modName : String
  /-- `str(inspect.signature(member))`, read in the function branch (line 56). -/
  sig : String
  /-- `type(member).__name__` (line 62). -/
  typeName : String
  /-- `type(member).__module__`: the defining module of the member's runtime
  type. The source never actually reads this attribute (see `renderMember`). -/
  typeModule : String
deriving DecidableEq

/-- A module as the generator observes it. -/
structure PyModule where
  /-- `module.__name__`. -/
  name : String
  /-- `str(module.__package__)` (line 37 applies `str` to the attribute). -/
  package : String
  /-- The module namespace: its name/member pairs, in namespace order. -/
  dict : List (String × PyMember)
deriving DecidableEq

/-- Inserts a named entry into a name-sorted list. -/
def insertByName {α : Type} (p : String × α) : List (String × α) → List (String × α)
  | [] => [p]
  | q :: rest =>
    if charListLe p.1.data q.1.data then p :: q :: rest else q :: insertByName p rest

/-- Sorts a list of named entries by name. -/
def sortByName {α : Type} : List (String × α) → List (String × α)
  | [] => []
  | p :: rest => insertByName p (sortByName rest)

/-- Python `inspect.getmembers(obj)` (line 34): the (name, value) pairs of the
module namespace, sorted by name. -/
def getmembers (m : PyModule) : List (String × PyMember) := sortByName m.dict

/-- The value of `obj_type.__class__.__module__` computed at line 63. At that
point `obj_type` is the string `type(member).__name__`; the class of a Python
`str` value is the builtin class `str`, whose `__module__` is `"builtins"`,
so line 63 evaluates to this constant for every member. -/
def strClassModule : String := "builtins"

/-- One iteration of the member loop (lines 52-68): the block of text written
for a single non-dunder member, before the terminating blank line. -/
def renderMember (name : String) (mem : PyMember) : String :=
  if mem.isclass then s!"class {name}:\n    ..."
  else if mem.isfunction then
    let sg := mem.sig
    s!"def {name}{sg}: ..."
  else if mem.ismodule then
    let mn := mem.modName
    s!"import {mn}  # type: ignore"
  else if mem.isbuiltin then s!"# Built-in: {name}"
  else
    let objType := mem.typeName
    let objModule := strClassModule
    let objTypeR := if objType = "NoneType" then "None" else objType
    let isB := pyBoolStr (decide (objModule = "builtins"))
    s!"{name}: {objTypeR} # builtin: {objModule} {isB}"

/-- The header line written first (line 46), spelling included. -/
def stubHeader (moduleName : String) : String :=
  s!"# Auto generatded stub from stubby.py {moduleName}\n\n"

/-- The member loop (lines 48-70): members whose name starts with `__` are
skipped; every other member contributes its block followed by `'\n\n'`. -/
def renderAll : List (String × PyMember) → String
  | [] => ""
  | (name, mem) :: rest =>
    if pyStarts name "__" then renderAll rest
    else renderMember name mem ++ "\n\n" ++ renderAll rest

/-- The full text written to the output file (lines 45-70). -/
def stubFileContent (moduleName : String) (members : List (String × PyMember)) : String :=
  stubHeader moduleName ++ renderAll members

/-- The `ModuleStubGenerator` class: it keeps a reference to the module object
and the member list captured by `inspect.getmembers` at construction time
(lines 32-34). -/
structure ModuleStubGenerator where
  obj : PyModule
  members : List (String × PyMember)
deriving DecidableEq

/-- `ModuleStubGenerator.__init__` (lines 32-34). -/
def ModuleStubGenerator.init (m : PyModule) : ModuleStubGenerator :=
  ⟨m, getmembers m⟩

/-- The output file path computed at lines 37-39:
`os.path.join(output_folder, *package.split('.'), f'<module_name>.pyi')` with
`package = str(obj.__package__)` and
`module_name = str(obj.__name__).removeprefix(f'<package>.')`. -/
def msgOutputFile (g : ModuleStubGenerator) (outputFolder : List String) : List String :=
  let package := g.obj.package
  let moduleName := pyStripPfx g.obj.name (package ++ ".")
  outputFolder ++ pySplitDot package ++ [moduleName ++ ".pyi"]

/-- `ModuleStubGenerator.generate` (lines 36-70): derive the output path,
create the parent directory when it does not exist, and (over)write the file
with the rendered stub text. -/
def ModuleStubGenerator.generate (g : ModuleStubGenerator) (outputFolder : List String) (fs : FS) : FS :=
  let outputFile := msgOutputFile g outputFolder
  let rootFolder := outputFile.dropLast
  let fs1 := if fs.pathExists rootFolder then fs else fs.makedirs rootFolder
  fs1.writeFile outputFile (stubFileContent g.obj.name g.members)

/-- The stub path of a module: where a freshly constructed generator for `m`
writes its file. -/
def stubPath (m : PyModule) (outputFolder : List String) : List String :=
  outputFolder ++ pySplitDot m.package ++ [pyStripPfx m.name (m.package ++ ".") ++ ".pyi"]

/-- The package tree walked by `StubGenerator._generate_stubs`: a `pkg` node
is a package whose `pkgutil.iter_modules(module.__path__, ...)` enumeration
(line 99) yields the listed children in order; a `leaf` node is a plain
module. `importlib.import_module(modinfo.name)` (line 100) is resolved
through the tree: each child node carries its loaded module. The `_package`
dotted-name prefix threaded by the source (lines 91-99) only shapes the
names handed to `importlib`, so it has no separate representation here. -/
inductive ModTree where
  | leaf (m : PyModule)
  | pkg (m : PyModule) (children : List ModTree)

/-- The leaf (non-package) modules of a forest, in traversal order. -/
def leavesList : List ModTree → List PyModule
  | [] => []
  | ModTree.leaf m :: rest => m :: leavesList rest
  | ModTree.pkg _ cs :: rest => leavesList cs ++ leavesList rest

/-- The loop body of `StubGenerator._generate_stubs` (lines 99-109) over the
children of one package: a package child is recursed into (line 104) and a
leaf child is handed to a freshly constructed `ModuleStubGenerator`
(lines 108-109). -/
def genList (outputFolder : List String) : List ModTree → FS → FS
  | [], fs => fs
  | ModTree.leaf m :: rest, fs =>
    genList outputFolder rest ((ModuleStubGenerator.init m).generate outputFolder fs)
  | ModTree.pkg _ cs :: rest, fs =>
    genList outputFolder rest (genList outputFolder cs fs)

/-- `StubGenerator._generate_stubs` (lines 91-109) on a tree node. The source
only ever receives package modules here; handing it a leaf module would fault
on `module.__path__` in Python and is mapped to the identity. -/
def genStubs (t : ModTree) (outputFolder : List String) (fs : FS) : FS :=
  match t with
  | ModTree.leaf _ => fs
  | ModTree.pkg _ cs => genList outputFolder cs fs

/-- The `StubGenerator` class (lines 73-76): it stores the root package. -/
structure StubGenerator where
  module : ModTree

/-- `StubGenerator.generate` (lines 78-89): when `flush_old` is set and the
output folder exists, the whole output subtree is removed first; then the
walk starts. -/
def StubGenerator.generate (sg : StubGenerator) (outputFolder : List String) (flushOld : Bool) (fs : FS) : FS :=
  let fs1 :=
    if flushOld && fs.pathExists outputFolder then fs.rmtree outputFolder else fs
  genStubs sg.module outputFolder fs1

/-- Modelled from the spec: the closed five-way member classification
(class / function / submodule / builtin-callable / plain value). -/
inductive MemberKind where
  | cls
  | fn
  | modu
  | builtinCallable
  | plainValue
deriving DecidableEq

/-- Modelled from the spec: classify a member by testing the predicates in
the stated priority order, first match wins (class before function, function
before module, module before builtin callable, plain value last). -/
def specClassify (mem : PyMember) : MemberKind :=
  if mem.isclass then MemberKind.cls
  else if mem.isfunction then MemberKind.fn
  else if mem.ismodule then MemberKind.modu
  else if mem.isbuiltin then MemberKind.builtinCallable
  else MemberKind.plainValue

/-- Modelled from the spec: one rendering rule per classification tag. -/
def specRenderByKind (k : MemberKind) (name : String) (mem : PyMember) : String :=
  match k with
  | MemberKind.cls => s!"class {name}:\n    ..."
  | MemberKind.fn =>
    let sg := mem.sig
    s!"def {name}{sg}: ..."
  | MemberKind.modu =>
    let mn := mem.modName
    s!"import {mn}  # type: ignore"
  | MemberKind.builtinCallable => s!"# Built-in: {name}"
  | MemberKind.plainValue =>
    let objType := mem.typeName
    let objModule := strClassModule
    let objTypeR := if objType = "NoneType" then "None" else objType
    let isB := pyBoolStr (decide (objModule = "builtins"))
    s!"{name}: {objTypeR} # builtin: {objModule} {isB}"

/-- A member in the exception-aware model: `str(inspect.signature(member))`
may raise (native callables with no inspectable signature), which `Except`
records. All other observations are as in `PyMember`. -/
structure PyMemberE where
  isclass : Bool
  isfunction : Bool
  ismodule : Bool
  isbuiltin : Bool
  modName : String
  sig : Except String String
  typeName : String

/-- A module in the exception-aware model. -/
structure PyModuleE where
  name : String
  package : String
  dict : List (String × PyMemberE)

/-- Python `inspect.getmembers` in the exception-aware model. -/
def getmembersE (m : PyModuleE) : List (String × PyMemberE) := sortByName m.dict

/-- The package tree in the exception-aware model: a `broken` child is one
whose `importlib.import_module` call (line 100) raises. -/
inductive ModTreeE where
  | leaf (m : PyModuleE)
  | pkg (m : PyModuleE) (children : List ModTreeE)
  | broken (e : String)

/-- The member block of lines 52-68 in the exception-aware model: the only
fallible step is `inspect.signature` in the function branch (line 56), and
its error is not caught. -/
def renderMemberE (name : String) (mem : PyMemberE) : Except String String :=
  if mem.isclass then Except.ok s!"class {name}:\n    ..."
  else if mem.isfunction then
    match mem.sig with
    | Except.error e => Except.error e
    | Except.ok sg => Except.ok s!"def {name}{sg}: ..."
  else if mem.ismodule then
    let mn := mem.modName
    Except.ok s!"import {mn}  # type: ignore"
  else if mem.isbuiltin then Except.ok s!"# Built-in: {name}"
  else
    let objType := mem.typeName
    let objModule := strClassModule
    let objTypeR := if objType = "NoneType" then "None" else objType
    let isB := pyBoolStr (decide (objModule = "builtins"))
    Except.ok s!"{name}: {objTypeR} # builtin: {objModule} {isB}"

/-- The member loop (lines 48-70) in the exception-aware model: the first
failing member aborts the loop and its error propagates. -/
def renderAllE : List (String × PyMemberE) → Except String String
  | [] => Except.ok ""
  | (name, mem) :: rest =>
    if pyStarts name "__" then renderAllE rest
    else
      match renderMemberE name mem with
      | Except.error e => Except.error e
      | Except.ok s =>
        match renderAllE rest with
        | Except.error e => Except.error e
        | Except.ok t => Except.ok (s ++ "\n\n" ++ t)

/-- `ModuleStubGenerator` construction plus `generate` (lines 36-70) in the
exception-aware model: a rendering failure propagates and no result
filesystem is produced. -/
def generateModuleE (m : PyModuleE) (outputFolder : List String) (fs : FS) : Except String FS :=
  let package := m.package
  let moduleName := pyStripPfx m.name (package ++ ".")
  let outputFile := outputFolder ++ pySplitDot package ++ [moduleName ++ ".pyi"]
  let rootFolder := outputFile.dropLast
  let fs1 := if fs.pathExists rootFolder then fs else fs.makedirs rootFolder
  match renderAllE (getmembersE m) with
  | Except.error e => Except.error e
  | Except.ok body => Except.ok (fs1.writeFile outputFile (stubHeader m.name ++ body))

/-- The `_generate_stubs` loop (lines 99-109) in the exception-aware model:
a failed import (a `broken` child) or a failed module rendering aborts the
whole walk with that error; nothing is caught. -/
def genListE (outputFolder : List String) : List ModTreeE → FS → Except String FS
  | [], fs => Except.ok fs
  | ModTreeE.broken e :: _, _ => Except.error e
  | ModTreeE.leaf m :: rest, fs =>
    match generateModuleE m outputFolder fs with
    | Except.error e => Except.error e
    | Except.ok fs2 => genListE outputFolder rest fs2
  | ModTreeE.pkg _ cs :: rest, fs =>
    match genListE outputFolder cs fs with
    | Except.error e => Except.error e
    | Except.ok fs2 => genListE outputFolder rest fs2

/-- `StubGenerator.generate` (lines 78-89) in the exception-aware model. A
root without a `__path__` (a non-package module) faults in Python; this is
mapped to an error value. -/
def generateE (root : ModTreeE) (outputFolder : List String) (flushOld : Bool) (fs : FS) : Except String FS :=
  let fs1 :=
    if flushOld && fs.pathExists outputFolder then fs.rmtree outputFolder else fs
  match root with
  | ModTreeE.pkg _ cs => genListE outputFolder cs fs1
  | _ => Except.error "AttributeError: module has no attribute __path__"

/-- Tests whether a rendered member makes `inspect.signature` raise: it is
reached by the loop (not dunder-skipped), taken by the function branch
(not a class, is a function), and its signature errors. -/
def memFailsE (name : String) (mem : PyMemberE) : Bool :=
  !pyStarts name "__" && !mem.isclass && mem.isfunction &&
    (match mem.sig with
     | Except.error _ => true
     | Except.ok _ => false)

/-- Tests whether rendering a module raises somewhere. -/
def moduleFailsE (m : PyModuleE) : Bool :=
  (getmembersE m).any (fun p => memFailsE p.1 p.2)

mutual

/-- Tests whether a walk reaching this node raises: a broken import, a leaf
whose rendering raises, or a failure anywhere below a package. -/
def treeFailsE : ModTreeE → Bool
  | ModTreeE.broken _ => true
  | ModTreeE.leaf m => moduleFailsE m
  | ModTreeE.pkg _ cs => listFailsE cs

/-- Tests whether walking a forest raises at some node. -/
def listFailsE : List ModTreeE → Bool
  | [] => false
  | t :: rest => treeFailsE t || listFailsE rest

end

mutual

/-- Tests whether some import in the tree raises (a `broken` node). -/
def treeBrokenE : ModTreeE → Bool
  | ModTreeE.broken _ => true
  | ModTreeE.leaf _ => false
  | ModTreeE.pkg _ cs => listBrokenE cs

/-- Tests whether some import in the forest raises. -/
def listBrokenE : List ModTreeE → Bool
  | [] => false
  | t :: rest => treeBrokenE t || listBrokenE rest

end

/-- Writing a file then reading the same path yields the written content. -/
theorem lookupAssoc_writeAssoc_self (fl : List (List String × String)) (p : List String) (c : String) :
    lookupAssoc (writeAssoc fl p c) p = some c := by
  induction fl with
  | nil => simp [writeAssoc, lookupAssoc]
  | cons hd tl ih =>
    rcases hd with ⟨q, d⟩
    by_cases h : q = p
    · simp [writeAssoc, lookupAssoc, h]
    · simp [writeAssoc, lookupAssoc, h, ih]

/-- Writing a file preserves the presence of every file. -/
theorem lookupAssoc_writeAssoc_mono (fl : List (List String × String)) (p : List String) (c : String)
    (q : List String) (h : lookupAssoc fl q ≠ none) :
    lookupAssoc (writeAssoc fl p c) q ≠ none := by
  induction fl with
  | nil => simp [lookupAssoc] at h
  | cons hd tl ih =>
    rcases hd with ⟨r, d⟩
    by_cases hr : r = p
    · subst hr
      by_cases hq : r = q
      · simp [writeAssoc, lookupAssoc, hq]
      · simp [writeAssoc, lookupAssoc, hq] at h ⊢
        exact h
    · by_cases hq : r = q
      · subst hq
        simp [writeAssoc, lookupAssoc, hr]
      · simp [writeAssoc, lookupAssoc, hr, hq] at h ⊢
        exact ih h

/-- A file present after a write was either the written path or was already
present. -/
theorem lookupAssoc_writeAssoc_src (fl : List (List String × String)) (p : List String) (c : String)
    (q : List String) (h : lookupAssoc (writeAssoc fl p c) q ≠ none) :
    q = p ∨ lookupAssoc fl q ≠ none := by
  induction fl with
  | nil =>
    simp only [writeAssoc, lookupAssoc] at h
    by_cases hq : p = q
    · exact Or.inl hq.symm
    · simp [hq] at h
  | cons hd tl ih =>
    rcases hd with ⟨r, d⟩
    by_cases hr : r = p
    · subst hr
      by_cases hq : r = q
      · exact Or.inr (by simp [lookupAssoc, hq])
      · simp only [writeAssoc, if_pos rfl, lookupAssoc] at h
        simp only [if_neg hq] at h
        exact Or.inr (by simp [lookupAssoc, hq, h])
    · by_cases hq : r = q
      · exact Or.inr (by simp [lookupAssoc, hq])
      · simp only [writeAssoc, if_neg hr, lookupAssoc, if_neg hq] at h
        rcases ih h with h' | h'
        · exact Or.inl h'
        · exact Or.inr (by simp [lookupAssoc, hq, h'])

/-- Path membership in the file-path list is the same as a successful lookup. -/
theorem pathMem_map_fst (fl : List (List String × String)) (p : List String) :
    pathMem p (fl.map Prod.fst) = (lookupAssoc fl p).isSome := by
  induction fl with
  | nil => simp [pathMem, lookupAssoc]
  | cons hd tl ih =>
    rcases hd with ⟨q, d⟩
    by_cases h : q = p
    · simp [pathMem, lookupAssoc, h]
    · simp [pathMem, lookupAssoc, h, ih]

/-- A path is under the subtree of any of its own prefixes. -/
theorem pathUnder_append (a b : List String) : pathUnder a (a ++ b) = true := by
  induction a with
  | nil => rfl
  | cons x xs ih => simp [pathUnder, ih]

/-- A path is under its own subtree. -/
theorem pathUnder_refl (a : List String) : pathUnder a a = true := by
  have h := pathUnder_append a []
  rwa [List.append_nil] at h

/-- The `pathUnder` test decides the list prefix relation. -/
theorem pathUnder_iff (q p : List String) : pathUnder q p = true ↔ q <+: p := by
  induction q generalizing p with
  | nil => simp [pathUnder]
  | cons x xs ih =>
    cases p with
    | nil => simp [pathUnder]
    | cons y ys =>
      by_cases h : x = y
      · subst h
        simp [pathUnder, ih, List.cons_prefix_cons]
      · simp [pathUnder, h, List.cons_prefix_cons]

/-- After filtering out a subtree, no path of that subtree is a member. -/
theorem pathMem_filter_under (out p : List String) (ds : List (List String))
    (h : pathUnder out p = true) :
    pathMem p (ds.filter (fun d => !(pathUnder out d))) = false := by
  induction ds with
  | nil => simp [pathMem]
  | cons d tl ih =>
    by_cases hd : pathUnder out d
    · simp [List.filter, hd, ih]
    · have hne : d ≠ p := by
        intro hdp
        subst hdp
        simp [h] at hd
      simp [List.filter, hd, pathMem, hne, ih]

/-- After filtering out a subtree, no file of that subtree can be looked up. -/
theorem lookupAssoc_filter_under (out p : List String) (fl : List (List String × String))
    (h : pathUnder out p = true) :
    lookupAssoc (fl.filter (fun f => !(pathUnder out f.1))) p = none := by
  induction fl with
  | nil => simp [lookupAssoc]
  | cons f tl ih =>
    by_cases hf : pathUnder out f.1
    · simp [List.filter, hf, ih]
    · have hne : f.1 ≠ p := by
        intro hfp
        rw [hfp] at hf
        simp [h] at hf
      rcases f with ⟨q, d⟩
      simp only [List.filter]
      simp only at hf hne
      simp [hf, lookupAssoc, hne, ih]

/-- Appending to a path list preserves membership. -/
theorem pathMem_append_one (ds : List (List String)) (q r : List String)
    (h : pathMem q ds = true) : pathMem q (ds ++ [r]) = true := by
  induction ds with
  | nil => simp [pathMem] at h
  | cons d tl ih =>
    by_cases hd : d = q
    · simp [pathMem, hd]
    · simp only [pathMem, if_neg hd] at h
      simp only [List.cons_append, pathMem, if_neg hd]
      exact ih h

/-- Adding a directory preserves directory membership. -/
theorem pathMem_addDir (ds : List (List String)) (q r : List String)
    (h : pathMem q ds = true) : pathMem q (addDir ds r) = true := by
  unfold addDir
  by_cases hr : pathMem r ds
  · simp [hr, h]
  · simp only [hr, Bool.false_eq_true, if_neg, not_false_iff]
    exact pathMem_append_one ds q r h

/-- The added directory is a member afterwards. -/
theorem pathMem_addDir_self (ds : List (List String)) (r : List String) :
    pathMem r (addDir ds r) = true := by
  unfold addDir
  by_cases hr : pathMem r ds
  · simp [hr]
  · simp only [hr, if_neg]
    induction ds with
    | nil => simp [pathMem]
    | cons d tl ih =>
      by_cases hd : d = r
      · simp [pathMem, hd]
      · simp only [pathMem, if_neg hd] at hr ⊢
        exact ih hr

/-- Folding `addDir` preserves directory membership. -/
theorem pathMem_foldl_addDir (l : List (List String)) (ds : List (List String)) (q : List String)
    (h : pathMem q ds = true) : pathMem q (l.foldl addDir ds) = true := by
  induction l generalizing ds with
  | nil => exact h
  | cons r tl ih => exact ih (addDir ds r) (pathMem_addDir ds q r h)

/-- Every folded-in directory is a member afterwards. -/
theorem pathMem_foldl_addDir_of_mem (l : List (List String)) (ds : List (List String))
    (q : List String) : q ∈ l → pathMem q (l.foldl addDir ds) = true := by
  induction l generalizing ds with
  | nil => intro h; simp at h
  | cons r tl ih =>
    intro h
    rcases List.mem_cons.mp h with h' | h'
    · subst h'
      exact pathMem_foldl_addDir tl (addDir ds q) q (pathMem_addDir_self ds q)
    · exact ih (addDir ds r) h'

/-- After `makedirs p`, every prefix of `p` (in particular `p` itself) is an
existing directory. -/
theorem makedirs_dirs (fs : FS) (p q : List String) (h : pathUnder q p = true) :
    pathMem q ((fs.makedirs p).dirs) = true := by
  unfold FS.makedirs
  apply pathMem_foldl_addDir_of_mem
  exact (List.mem_inits q p).mpr ((pathUnder_iff q p).mp h)

/-- `makedirs` preserves directory membership. -/
theorem makedirs_dirs_mono (fs : FS) (p q : List String)
    (h : pathMem q fs.dirs = true) : pathMem q ((fs.makedirs p).dirs) = true := by
  unfold FS.makedirs
  exact pathMem_foldl_addDir p.inits fs.dirs q h

/-- The files written by `ModuleStubGenerator.generate`: exactly one update of
the association list, at the derived output path, with the rendered text. -/
theorem msg_generate_files (g : ModuleStubGenerator) (out : List String) (fs : FS) :
    ((g.generate out fs)).files =
      writeAssoc fs.files (msgOutputFile g out) (stubFileContent g.obj.name g.members) := by
  unfold ModuleStubGenerator.generate
  by_cases h : fs.pathExists (msgOutputFile g out).dropLast
  · simp [h, FS.writeFile]
  · simp [h, FS.writeFile, FS.makedirs]

/-- `ModuleStubGenerator.generate` never removes a directory. -/
theorem msg_generate_dirs_mono (g : ModuleStubGenerator) (out : List String) (fs : FS)
    (d : List String) (h : pathMem d fs.dirs = true) :
    pathMem d ((g.generate out fs)).dirs = true := by
  unfold ModuleStubGenerator.generate
  by_cases hex : fs.pathExists (msgOutputFile g out).dropLast
  · simpa [hex, FS.writeFile] using h
  · simp only [hex, if_neg, Bool.false_eq_true, not_false_iff, FS.writeFile]
    exact makedirs_dirs_mono fs _ d h

/-- The output path of a freshly constructed generator is the module's stub
path. -/
theorem msgOutputFile_init (m : PyModule) (out : List String) :
    msgOutputFile (ModuleStubGenerator.init m) out = stubPath m out := rfl

/-- The stub path, re-associated to expose `out` as a prefix. -/
theorem stubPath_under (m : PyModule) (out : List String) :
    pathUnder out (stubPath m out) = true := by
  unfold stubPath
  rw [List.append_assoc]
  exact pathUnder_append out _

/-- The parent folder of a stub path: the output root joined with the
package's dotted-name segments. -/
theorem stubPath_dropLast (m : PyModule) (out : List String) :
    (stubPath m out).dropLast = out ++ pySplitDot m.package := by
  unfold stubPath
  exact List.dropLast_concat ..

/-- The parent folder of a stub path lies inside the output root. -/
theorem stubPath_dropLast_under (m : PyModule) (out : List String) :
    pathUnder out ((stubPath m out).dropLast) = true := by
  rw [stubPath_dropLast]
  exact pathUnder_append out _

/-- A write inside the output subtree is invisible outside it. -/
theorem writeAssoc_filter_under (out p : List String) (c : String)
    (fl : List (List String × String)) (h : pathUnder out p = true) :
    (writeAssoc fl p c).filter (fun f => !(pathUnder out f.1)) =
      fl.filter (fun f => !(pathUnder out f.1)) := by
  induction fl with
  | nil => simp [writeAssoc, List.filter, h]
  | cons f tl ih =>
    rcases f with ⟨q, d⟩
    by_cases hq : q = p
    · subst hq
      simp [writeAssoc, List.filter, h]
    · simp [writeAssoc, List.filter, hq, ih]

/-- Unfolding of the walk over a package forest: the walk is the left fold of
the per-leaf renderer over the leaf modules in traversal order. Package
nodes contribute no write of their own. -/
theorem genList_eq_foldl (out : List String) :
    ∀ (ts : List ModTree) (fs : FS),
      genList out ts fs =
        (leavesList ts).foldl (fun a q => (ModuleStubGenerator.init q).generate out a) fs := by
  intro ts fs
  induction ts, fs using genList.induct out with
  | case1 fs => simp [genList, leavesList]
  | case2 m rest fs ih =>
    simp only [genList, leavesList, List.foldl]
    exact ih
  | case3 p cs rest fs ih1 ih2 =>
    simp only [genList, leavesList, List.foldl_append]
    rw [ih2, ih1]

/-- The files produced by the walk depend only on the files of the starting
state (directory creation never touches files, and file writes never read
directories). -/
theorem genList_files_congr (out : List String) :
    ∀ (ts : List ModTree) (fs fs' : FS), fs.files = fs'.files →
      (genList out ts fs).files = (genList out ts fs').files := by
  intro ts fs
  induction ts, fs using genList.induct out with
  | case1 fs => intro fs' h; simp [genList, h]
  | case2 m rest fs ih =>
    intro fs' h
    simp only [genList]
    apply ih
    rw [msg_generate_files, msg_generate_files, h]
  | case3 p cs rest fs ih1 ih2 =>
    intro fs' h
    simp only [genList]
    exact ih2 _ (ih1 _ h)

/-- Outside the output subtree, the walk changes no file. -/
theorem genList_filter_not_under (out : List String) :
    ∀ (ts : List ModTree) (fs : FS),
      ((genList out ts fs).files).filter (fun f => !(pathUnder out f.1)) =
        fs.files.filter (fun f => !(pathUnder out f.1)) := by
  intro ts fs
  induction ts, fs using genList.induct out with
  | case1 fs => simp [genList]
  | case2 m rest fs ih =>
    simp only [genList]
    rw [ih, msg_generate_files, msgOutputFile_init]
    exact writeAssoc_filter_under out _ _ fs.files (stubPath_under m out)
  | case3 p cs rest fs ih1 ih2 =>
    simp only [genList]
    rw [ih2, ih1]

/-- A forest without leaf modules produces no change at all. -/
theorem genList_no_leaves (out : List String) :
    ∀ (ts : List ModTree) (fs : FS), leavesList ts = [] → genList out ts fs = fs := by
  intro ts fs
  induction ts, fs using genList.induct out with
  | case1 fs => intro _; simp [genList]
  | case2 m rest fs ih => intro h; simp [leavesList] at h
  | case3 p cs rest fs ih1 ih2 =>
    intro h
    simp only [leavesList, List.append_eq_nil] at h
    simp only [genList]
    exact (ih2 h.2).trans (ih1 h.1)

/-- The walk never removes a directory. -/
theorem genList_dirs_mono (out : List String) :
    ∀ (ts : List ModTree) (fs : FS) (d : List String),
      pathMem d fs.dirs = true → pathMem d ((genList out ts fs).dirs) = true := by
  intro ts fs
  induction ts, fs using genList.induct out with
  | case1 fs => intro d h; simpa [genList] using h
  | case2 m rest fs ih =>
    intro d h
    simp only [genList]
    exact ih d (msg_generate_dirs_mono _ out fs d h)
  | case3 p cs rest fs ih1 ih2 =>
    intro d h
    simp only [genList]
    exact ih2 d (ih1 d h)

/-- The walk never loses a file: a path that can be looked up stays
readable. -/
theorem genList_lookup_mono (out : List String) :
    ∀ (ts : List ModTree) (fs : FS) (p : List String),
      lookupAssoc fs.files p ≠ none →
        lookupAssoc ((genList out ts fs).files) p ≠ none := by
  intro ts fs
  induction ts, fs using genList.induct out with
  | case1 fs => intro p h; simpa [genList] using h
  | case2 m rest fs ih =>
    intro p h
    simp only [genList]
    apply ih
    rw [msg_generate_files]
    exact lookupAssoc_writeAssoc_mono fs.files _ _ p h
  | case3 p cs rest fs ih1 ih2 =>
    intro q h
    simp only [genList]
    exact ih2 q (ih1 q h)

/-- A member whose signature introspection raises makes its block raise. -/
theorem renderMemberE_err (name : String) (mem : PyMemberE)
    (h : memFailsE name mem = true) : ∃ e, renderMemberE name mem = Except.error e := by
  simp only [memFailsE, Bool.and_eq_true, Bool.not_eq_true'] at h
  rcases h with ⟨⟨⟨hst, hc⟩, hf⟩, hs⟩
  rcases he : mem.sig with e | s
  · exact ⟨e, by simp [renderMemberE, hc, hf, he]⟩
  · rw [he] at hs
    simp at hs

/-- A member list containing a failing member makes the member loop raise. -/
theorem renderAllE_err :
    ∀ ms : List (String × PyMemberE),
      ms.any (fun p => memFailsE p.1 p.2) = true →
        ∃ e, renderAllE ms = Except.error e := by
  intro ms h
  induction ms with
  | nil => simp at h
  | cons hd tl ih =>
    rcases hd with ⟨name, mem⟩
    simp only [List.any_cons, Bool.or_eq_true] at h
    by_cases hst : pyStarts name "__"
    · have hhd : memFailsE name mem = false := by
        simp [memFailsE, hst]
      rw [hhd] at h
      simp only [Bool.false_eq_true, false_or] at h
      rcases ih h with ⟨e, he⟩
      exact ⟨e, by simp [renderAllE, hst, he]⟩
    · by_cases hm : memFailsE name mem = true
      · rcases renderMemberE_err name mem hm with ⟨e, he⟩
        exact ⟨e, by simp [renderAllE, hst, he]⟩
      · rw [Bool.not_eq_true] at hm
        rw [hm] at h
        simp only [Bool.false_eq_true, false_or] at h
        rcases ih h with ⟨e, he⟩
        rcases hr : renderMemberE name mem with e2 | s
        · exact ⟨e2, by simp [renderAllE, hst, hr]⟩
        · exact ⟨e, by simp [renderAllE, hst, hr, he]⟩

/-- A module with a failing member makes its whole rendering raise. -/
theorem generateModuleE_err (m : PyModuleE) (out : List String) (fs : FS)
    (h : moduleFailsE m = true) : ∃ e, generateModuleE m out fs = Except.error e := by
  rcases renderAllE_err (getmembersE m) h with ⟨e, he⟩
  exact ⟨e, by simp [generateModuleE, he]⟩

/-- A failure anywhere in a forest aborts the walk with an error: no import
error and no introspection error is caught. -/
theorem genListE_err (out : List String) :
    ∀ (ts : List ModTreeE) (fs : FS), listFailsE ts = true →
      ∃ e, genListE out ts fs = Except.error e := by
  intro ts fs
  induction ts, fs using genListE.induct out with
  | case1 fs => intro h; simp [listFailsE] at h
  | case2 e rest fs => intro _; exact ⟨e, by simp [genListE]⟩
  | case3 m rest fs e he =>
    intro _
    exact ⟨e, by simp [genListE, he]⟩
  | case4 m rest fs fs2 hok ih =>
    intro h
    simp only [listFailsE, treeFailsE, Bool.or_eq_true] at h
    rcases h with h | h
    · rcases generateModuleE_err m out fs h with ⟨e, he⟩
      rw [hok] at he
      exact absurd he (by simp)
    · rcases ih h with ⟨e, he⟩
      exact ⟨e, by simp [genListE, hok, he]⟩
  | case5 p cs rest fs e he =>
    intro _
    exact ⟨e, by simp [genListE, he]⟩
  | case6 p cs rest fs fs2 hok ih1 ih2 =>
    intro h
    simp only [listFailsE, treeFailsE, Bool.or_eq_true] at h
    rcases h with h | h
    · rcases ih1 h with ⟨e, he⟩
      rw [hok] at he
      exact absurd he (by simp)
    · rcases ih2 h with ⟨e, he⟩
      exact ⟨e, by simp [genListE, hok, he]⟩

mutual

/-- A broken import at a node is in particular a failure at that node. -/
theorem treeBrokenE_fails : ∀ t : ModTreeE, treeBrokenE t = true → treeFailsE t = true
  | ModTreeE.broken e, _ => by simp [treeFailsE]
  | ModTreeE.leaf m, h => by simp [treeBrokenE] at h
  | ModTreeE.pkg p cs, h => by
    simp only [treeBrokenE] at h
    simp only [treeFailsE]
    exact listBrokenE_fails cs h

/-- A broken import somewhere in a forest is in particular a failure
somewhere in it. -/
theorem listBrokenE_fails : ∀ ts : List ModTreeE, listBrokenE ts = true → listFailsE ts = true
  | [], h => by simp [listBrokenE] at h
  | t :: rest, h => by
    simp only [listBrokenE, Bool.or_eq_true] at h
    simp only [listFailsE, Bool.or_eq_true]
    rcases h with h | h
    · exact Or.inl (treeBrokenE_fails t h)
    · exact Or.inr (listBrokenE_fails rest h)

end

/-- Writing a file preserves path existence. -/
theorem pathExists_writeFile_mono (fs : FS) (p q : List String) (c : String)
    (h : fs.pathExists q = true) : (fs.writeFile p c).pathExists q = true := by
  unfold FS.pathExists at h ⊢
  unfold FS.writeFile
  simp only [Bool.or_eq_true] at h ⊢
  rcases h with h | h
  · exact Or.inl h
  · right
    rw [pathMem_map_fst] at h ⊢
    rw [Option.isSome_iff_ne_none] at h ⊢
    exact lookupAssoc_writeAssoc_mono fs.files p c q h

/-- After `ModuleStubGenerator.generate`, the parent folder of the output
file exists: it either pre-existed or was just created. -/
theorem msg_generate_parent_exists (g : ModuleStubGenerator) (out : List String) (fs : FS) :
    (g.generate out fs).pathExists ((msgOutputFile g out).dropLast) = true := by
  unfold ModuleStubGenerator.generate
  by_cases hex : fs.pathExists (msgOutputFile g out).dropLast = true
  · simp only [hex, if_true]
    exact pathExists_writeFile_mono _ _ _ _ hex
  · simp only [hex, if_false]
    apply pathExists_writeFile_mono
    unfold FS.pathExists
    simp only [Bool.or_eq_true]
    left
    exact makedirs_dirs fs _ _ (pathUnder_refl _)

/-- A plain-value member whose runtime type is defined outside the builtin
namespace: `type(member).__name__ == 'Widget'` and
`type(member).__module__ == 'mypkg.widgets'` (for example an instance of a
user-defined class `Widget` living in module `mypkg.widgets`). -/
def widgetMember : PyMember :=
  ⟨false, false, false, false, "", "", "Widget", "mypkg.widgets"⟩

/-- The null singleton as a member: `type(None).__name__ == 'NoneType'` and
`type(None).__module__ == 'builtins'`. -/
def noneMember : PyMember :=
  ⟨false, false, false, false, "", "", "NoneType", "builtins"⟩

/-- C1: for a plain value the source is meant to report the defining module
of the value's runtime type in the trailing comment, but line 63 computes
`obj_type.__class__.__module__` on the type-NAME STRING instead of the type,
so the comment always reads `builtins True`. For the member `X`, an instance
of `mypkg.widgets.Widget`, the emitted line still claims `builtins True`
although the type's defining module is `mypkg.widgets`, not the builtin
namespace. The none-marker half of the claim does hold: a `None` value is
rendered with the `None` placeholder and (correctly, by accident) a
builtins comment. -/
theorem c1_plain_value_comment :
    renderMember "X" widgetMember = "X: Widget # builtin: builtins True" ∧
      widgetMember.typeModule = "mypkg.widgets" ∧
      ("mypkg.widgets" : String) ≠ "builtins" ∧
      renderMember "Y" noneMember = "Y: None # builtin: builtins True" := by
  refine ⟨by decide, rfl, by decide, by decide⟩

/-- C2: the renderer is exactly a five-way classification with one rendering
rule per tag, the predicates being tested in the priority order class,
function, module, builtin callable, plain value; a member satisfying several
predicates is rendered by the first matching rule. -/
theorem c2_classification_priority (name : String) (mem : PyMember) :
    renderMember name mem = specRenderByKind (specClassify mem) name mem ∧
      (mem.isclass = true → specClassify mem = MemberKind.cls) ∧
      (mem.isclass = false → mem.isfunction = true →
        specClassify mem = MemberKind.fn) ∧
      (mem.isclass = false → mem.isfunction = false → mem.ismodule = true →
        specClassify mem = MemberKind.modu) ∧
      (mem.isclass = false → mem.isfunction = false → mem.ismodule = false →
        mem.isbuiltin = true → specClassify mem = MemberKind.builtinCallable) ∧
      (mem.isclass = false → mem.isfunction = false → mem.ismodule = false →
        mem.isbuiltin = false → specClassify mem = MemberKind.plainValue) := by
  cases hc : mem.isclass <;> cases hf : mem.isfunction <;>
    cases hm : mem.ismodule <;> cases hb : mem.isbuiltin <;>
      simp [renderMember, specClassify, specRenderByKind, hc, hf, hm, hb]

/-- A member value satisfying all four predicates at once. -/
def allPredsMember : PyMember :=
  ⟨true, true, true, true, "mypkg.sub", "(a, b=1)", "type", "builtins"⟩

/-- Witness for C2 at a member satisfying every predicate: it is classified
and rendered as a class, the first rule in priority order. -/
theorem c2_classification_priority_witness :
    renderMember "f" allPredsMember =
        specRenderByKind (specClassify allPredsMember) "f" allPredsMember ∧
      specClassify allPredsMember = MemberKind.cls :=
  ⟨(c2_classification_priority "f" allPredsMember).1,
   (c2_classification_priority "f" allPredsMember).2.1 rfl⟩

/-- C3: the file text is the header followed by exactly one `'\n\n'`-terminated
block per member whose name does not start with `__`; members whose name
starts with `__` contribute nothing. -/
theorem c3_dunder_skipped (moduleName : String) (members : List (String × PyMember)) :
    stubFileContent moduleName members =
      stubHeader moduleName ++
        ((members.filter (fun p => !(pyStarts p.1 "__"))).map
            (fun p => renderMember p.1 p.2 ++ "\n\n")).foldr
          (fun a b => a ++ b) "" := by
  unfold stubFileContent
  congr 1
  induction members with
  | nil => rfl
  | cons hd tl ih =>
    rcases hd with ⟨name, mem⟩
    by_cases h : pyStarts name "__" = true
    · simp only [renderAll, h, if_true, List.filter_cons, Bool.not_true,
        Bool.false_eq_true, if_false]
      exact ih
    · simp only [Bool.not_eq_true] at h
      simp only [renderAll, h, Bool.false_eq_true, if_false, List.filter_cons,
        Bool.not_false, if_true, List.map_cons, List.foldr_cons]
      rw [ih]

/-- C6: the renderer writes its file exactly at
`output_root ++ package.split('.') ++ [name.removeprefix(package + '.') + '.pyi']`,
with the rendered stub text as content, and afterwards the destination
directory (the path's parent) exists — it was created recursively when
missing. -/
theorem c6_output_path (m : PyModule) (out : List String) (fs : FS) :
    FS.lookupFile ((ModuleStubGenerator.init m).generate out fs)
        (out ++ pySplitDot m.package ++ [pyStripPfx m.name (m.package ++ ".") ++ ".pyi"]) =
      some (stubFileContent m.name (getmembers m)) ∧
    FS.pathExists ((ModuleStubGenerator.init m).generate out fs)
        (out ++ pySplitDot m.package) = true := by
  constructor
  · show FS.lookupFile ((ModuleStubGenerator.init m).generate out fs) (stubPath m out) = _
    unfold FS.lookupFile
    rw [msg_generate_files, msgOutputFile_init]
    exact lookupAssoc_writeAssoc_self fs.files _ _
  · have h := msg_generate_parent_exists (ModuleStubGenerator.init m) out fs
    rw [msgOutputFile_init, stubPath_dropLast] at h
    exact h

/-- C9: with the flush flag set but a missing output directory, the flush
step does nothing (and raises nothing): the run is the same as with the
flag unset. -/
theorem c9_flush_missing_noop (sg : StubGenerator) (out : List String) (fs : FS)
    (h : fs.pathExists out = false) :
    sg.generate out true fs = sg.generate out false fs := by
  unfold StubGenerator.generate
  simp [h]

/-- A snapshot-carrying member for the C10 scenario: a plain integer value. -/
def intMember : PyMember :=
  ⟨false, false, false, false, "", "", "int", "builtins"⟩

/-- A module `pkg.mod` with one plain member. -/
def mod10 : PyModule := ⟨"pkg.mod", "pkg", [("x", intMember)]⟩

/-- The same module object after its namespace entry `__name__` has been
mutated to `pkg.evil` between the two `generate` calls. -/
def mod10Renamed : PyModule := ⟨"pkg.evil", "pkg", [("x", intMember)]⟩

/-- The filesystem after the first `generate` call on a fresh generator for
`mod10`. -/
def c10FirstCall : FS :=
  (ModuleStubGenerator.init mod10).generate ["out"] ⟨[], []⟩

/-- The filesystem after the second `generate` call on the same generator
instance, whose module object has meanwhile had `__name__` mutated: the
member snapshot is still the one captured at construction, but `generate`
re-reads `__name__` live. -/
def c10SecondCall : FS :=
  (⟨mod10Renamed, (ModuleStubGenerator.init mod10).members⟩ : ModuleStubGenerator).generate
    ["out"] c10FirstCall

/-- Counterexample to C10 as stated: mutating the module's namespace between
the two calls (here its `__name__` entry) changes the written file content,
because `generate` reads `self._obj.__name__` live (lines 38 and 46) rather
than from the captured snapshot. The second call writes a file whose content
differs from that written by the first call. -/
theorem c10_snapshot_counterexample :
    FS.lookupFile c10SecondCall (stubPath mod10Renamed ["out"]) ≠
      FS.lookupFile c10FirstCall (stubPath mod10 ["out"]) := by decide

/-- C10 as amended: the member list is captured once at construction, so as
long as the mutation leaves the module's `__name__` and `__package__`
attributes unchanged, a later `generate` call on the same instance writes
the same path and the same file content as a call before the mutation,
whatever else in the namespace was mutated and whatever the filesystem
state. -/
theorem c10_snapshot_amended (m m2 : PyModule) (out : List String) (fs fs2 : FS)
    (h1 : m2.name = m.name) (h2 : m2.package = m.package) :
    FS.lookupFile
        ((⟨m2, (ModuleStubGenerator.init m).members⟩ : ModuleStubGenerator).generate out fs2)
        (stubPath m out) =
      FS.lookupFile ((ModuleStubGenerator.init m).generate out fs) (stubPath m out) := by
  unfold FS.lookupFile
  rw [msg_generate_files, msg_generate_files, msgOutputFile_init]
  have hp : msgOutputFile (⟨m2, (ModuleStubGenerator.init m).members⟩ : ModuleStubGenerator) out
      = stubPath m out := by
    unfold msgOutputFile stubPath
    simp only [h1, h2]
  rw [hp]
  rw [lookupAssoc_writeAssoc_self, lookupAssoc_writeAssoc_self]
  simp [ModuleStubGenerator.init, h1]

/-- The same module with its namespace mutated in a way that leaves
`__name__` and `__package__` alone (here: all other members deleted). -/
def mod10Mutated : PyModule := ⟨"pkg.mod", "pkg", []⟩

/-- Witness for the amended C10 at a concrete mutation of the member list. -/
theorem c10_snapshot_amended_witness :
    mod10Mutated.name = mod10.name ∧ mod10Mutated.package = mod10.package ∧
      FS.lookupFile
          ((⟨mod10Mutated, (ModuleStubGenerator.init mod10).members⟩ : ModuleStubGenerator).generate
            ["out"] ⟨[], []⟩)
          (stubPath mod10 ["out"]) =
        FS.lookupFile ((ModuleStubGenerator.init mod10).generate ["out"] ⟨[], []⟩)
          (stubPath mod10 ["out"]) :=
  ⟨rfl, rfl, c10_snapshot_amended mod10 mod10Mutated ["out"] ⟨[], []⟩ ⟨[], []⟩ rfl rfl⟩

/-- `StubGenerator.generate` unfolded on a stored root tree. -/
theorem sg_generate_eq (t : ModTree) (out : List String) (fl : Bool) (fs : FS) :
    StubGenerator.generate ⟨t⟩ out fl fs =
      genStubs t out (if fl && fs.pathExists out then fs.rmtree out else fs) := rfl

/-- A file present after the per-leaf fold is either one of the stub paths of
the folded modules or was present before. -/
theorem foldl_mgen_src (out : List String) :
    ∀ (L : List PyModule) (fs : FS) (p : List String),
      lookupAssoc ((L.foldl (fun a q => (ModuleStubGenerator.init q).generate out a) fs).files) p ≠ none →
        p ∈ L.map (fun q => stubPath q out) ∨ lookupAssoc fs.files p ≠ none := by
  intro L
  induction L with
  | nil => intro fs p h; exact Or.inr h
  | cons q L ih =>
    intro fs p h
    simp only [List.foldl_cons] at h
    rcases ih _ p h with h1 | h1
    · simp only [List.map_cons, List.mem_cons]
      exact Or.inl (Or.inr h1)
    · rw [msg_generate_files, msgOutputFile_init] at h1
      rcases lookupAssoc_writeAssoc_src fs.files _ _ p h1 with h2 | h2
      · simp only [List.map_cons, List.mem_cons]
        exact Or.inl (Or.inl h2)
      · exact Or.inr h2

/-- C4: with the flush flag set and an existing output directory, the whole
pre-existing output subtree is deleted before generation, so every file found
inside the output directory after a completed run is the stub path of one of
the walked leaf modules — nothing unrelated survives. -/
theorem c4_flush_only_fresh (m : PyModule) (cs : List ModTree) (out : List String)
    (fs : FS) (p : List String)
    (hex : fs.pathExists out = true) (hund : pathUnder out p = true)
    (hlook : FS.lookupFile (StubGenerator.generate ⟨ModTree.pkg m cs⟩ out true fs) p ≠ none) :
    p ∈ (leavesList cs).map (fun q => stubPath q out) := by
  rw [sg_generate_eq] at hlook
  simp only [hex, Bool.and_true, if_true] at hlook
  have hlook2 : lookupAssoc ((genList out cs (fs.rmtree out)).files) p ≠ none := by
    simpa [FS.lookupFile] using hlook
  rw [genList_eq_foldl] at hlook2
  rcases foldl_mgen_src out (leavesList cs) (fs.rmtree out) p hlook2 with h | h
  · exact h
  · exfalso
    apply h
    show lookupAssoc (fs.files.filter (fun f => !(pathUnder out f.1))) p = none
    exact lookupAssoc_filter_under out p fs.files hund

/-- Nothing inside the deleted subtree still exists after `rmtree`. -/
theorem pathExists_rmtree_under (fs : FS) (out p : List String)
    (h : pathUnder out p = true) : (fs.rmtree out).pathExists p = false := by
  unfold FS.rmtree FS.pathExists
  simp only
  rw [pathMem_filter_under out p fs.dirs h]
  rw [pathMem_map_fst, lookupAssoc_filter_under out p fs.files h]
  rfl

/-- The per-leaf fold never removes a directory. -/
theorem foldl_mgen_dirs_mono (out : List String) :
    ∀ (L : List PyModule) (fs : FS) (d : List String),
      pathMem d fs.dirs = true →
        pathMem d ((L.foldl (fun a q => (ModuleStubGenerator.init q).generate out a) fs).dirs) = true := by
  intro L
  induction L with
  | nil => intro fs d h; exact h
  | cons q L ih =>
    intro fs d h
    simp only [List.foldl_cons]
    exact ih _ d (msg_generate_dirs_mono _ out fs d h)

/-- When the destination directory is missing, rendering a module creates the
output root directory (it is an ancestor of the destination). -/
theorem msg_generate_creates_out (q : PyModule) (out : List String) (fs0 : FS)
    (h : fs0.pathExists ((stubPath q out).dropLast) = false) :
    pathMem out (((ModuleStubGenerator.init q).generate out fs0).dirs) = true := by
  unfold ModuleStubGenerator.generate
  rw [msgOutputFile_init]
  simp only [h, Bool.false_eq_true, if_false]
  show pathMem out ((FS.writeFile _ _ _).dirs) = true
  unfold FS.writeFile
  simp only
  exact makedirs_dirs fs0 _ out (stubPath_dropLast_under q out)

/-- C5: with the flush flag enabled and the output directory existing, a
second run on the same package and output directory reproduces the files of
the first run byte for byte (member enumeration and rendering are
deterministic, and the flush removes exactly what the previous run wrote
inside the output root). -/
theorem c5_idempotent (m : PyModule) (cs : List ModTree) (out : List String) (fs : FS)
    (hex : fs.pathExists out = true) :
    (StubGenerator.generate ⟨ModTree.pkg m cs⟩ out true
        (StubGenerator.generate ⟨ModTree.pkg m cs⟩ out true fs)).files =
      (StubGenerator.generate ⟨ModTree.pkg m cs⟩ out true fs).files := by
  rw [sg_generate_eq, sg_generate_eq]
  have hpkg : ∀ fs' : FS, genStubs (ModTree.pkg m cs) out fs' = genList out cs fs' :=
    fun _ => rfl
  rw [hpkg, hpkg]
  simp only [hex, Bool.and_true, if_true]
  cases hL : leavesList cs with
  | nil =>
    rw [genList_no_leaves out cs (fs.rmtree out) hL]
    by_cases hc : (true && (fs.rmtree out).pathExists out) = true
    · simp only [hc, if_true]
      rw [genList_no_leaves out cs ((fs.rmtree out).rmtree out) hL]
      show ((fs.rmtree out).files).filter _ = (fs.rmtree out).files
      show ((fs.files.filter _).filter _) = fs.files.filter _
      rw [List.filter_filter]
      simp
    · simp only [hc, Bool.false_eq_true, if_false]
      rw [genList_no_leaves out cs (fs.rmtree out) hL]
  | cons q L =>
    have hx : pathMem out ((genList out cs (fs.rmtree out)).dirs) = true := by
      rw [genList_eq_foldl, hL]
      simp only [List.foldl_cons]
      apply foldl_mgen_dirs_mono
      apply msg_generate_creates_out
      exact pathExists_rmtree_under fs out _ (stubPath_dropLast_under q out)
    have hex1 : (genList out cs (fs.rmtree out)).pathExists out = true := by
      unfold FS.pathExists
      simp [hx]
    simp only [hex1, Bool.and_true, if_true]
    apply genList_files_congr
    show ((genList out cs (fs.rmtree out)).files).filter _ = (fs.rmtree out).files
    rw [genList_filter_not_under]
    show ((fs.files.filter _).filter _) = fs.files.filter _
    rw [List.filter_filter]
    simp

/-- C7: no error is caught anywhere in the walker or the renderer. Whenever
a failure occurs somewhere in the tree — an import that raises (a `broken`
child) or a member whose signature introspection raises — the whole run
aborts with an error; there is no partial-success handling. -/
theorem c7_error_propagation (m : PyModuleE) (cs : List ModTreeE) (out : List String)
    (flushOld : Bool) (fs : FS) (h : listFailsE cs = true) :
    ∃ e, generateE (ModTreeE.pkg m cs) out flushOld fs = Except.error e := by
  unfold generateE
  exact genListE_err out cs _ h

/-- A child whose import raises. -/
def brokenChildE : ModTreeE := ModTreeE.broken "ImportError: cannot import name"

/-- A root package for the exception-aware walker. -/
def rootModE : PyModuleE := ⟨"mypkg", "mypkg", []⟩

/-- Witness for C7 at a concrete tree with a failing import. -/
theorem c7_error_propagation_witness :
    listFailsE [brokenChildE] = true ∧
      ∃ e, generateE (ModTreeE.pkg rootModE [brokenChildE]) ["dist"] true ⟨[], []⟩ =
        Except.error e := by
  have h : listFailsE [brokenChildE] = true := by
    simp [listFailsE, treeFailsE, brokenChildE]
  exact ⟨h, c7_error_propagation rootModE [brokenChildE] ["dist"] true ⟨[], []⟩ h⟩

/-- The per-leaf fold keeps every already-written file readable. -/
theorem foldl_mgen_lookup_mono (out : List String) :
    ∀ (L : List PyModule) (fs : FS) (p : List String),
      lookupAssoc fs.files p ≠ none →
        lookupAssoc ((L.foldl (fun a q => (ModuleStubGenerator.init q).generate out a) fs).files) p ≠ none := by
  intro L
  induction L with
  | nil => intro fs p h; exact h
  | cons q L ih =>
    intro fs p h
    simp only [List.foldl_cons]
    apply ih
    rw [msg_generate_files]
    exact lookupAssoc_writeAssoc_mono fs.files _ _ p h

/-- After the per-leaf fold, every folded leaf's stub path is readable. -/
theorem foldl_mgen_lookup (out : List String) :
    ∀ (L : List PyModule) (fs : FS) (q : PyModule), q ∈ L →
      lookupAssoc ((L.foldl (fun a r => (ModuleStubGenerator.init r).generate out a) fs).files)
        (stubPath q out) ≠ none := by
  intro L
  induction L with
  | nil => intro fs q hq; simp at hq
  | cons r L ih =>
    intro fs q hq
    simp only [List.foldl_cons]
    rcases List.mem_cons.mp hq with h | h
    · subst h
      apply foldl_mgen_lookup_mono
      rw [msg_generate_files, msgOutputFile_init, lookupAssoc_writeAssoc_self]
      simp
    · exact ih _ q h

/-- C8: the walk over a package renders exactly its leaf modules — a
subpackage child is recursed into and writes no stub of its own, and each
leaf module is handed once to the renderer, so it yields an output file at
its stub path; and every child found in the enumeration is imported: a
single unimportable child anywhere aborts the walk, so none is skipped. -/
theorem c8_walk_structure :
    (∀ (m : PyModule) (cs : List ModTree) (out : List String) (fs : FS),
        genStubs (ModTree.pkg m cs) out fs =
          (leavesList cs).foldl (fun a q => (ModuleStubGenerator.init q).generate out a) fs) ∧
      (∀ (m : PyModule) (cs : List ModTree) (out : List String) (fs : FS) (q : PyModule),
          q ∈ leavesList cs →
            FS.lookupFile (genStubs (ModTree.pkg m cs) out fs) (stubPath q out) ≠ none) ∧
      (∀ (cs : List ModTreeE) (out : List String) (fs : FS),
          listBrokenE cs = true → ∃ e, genListE out cs fs = Except.error e) := by
  refine ⟨?_, ?_, ?_⟩
  · intro m cs out fs
    exact genList_eq_foldl out cs fs
  · intro m cs out fs q hq
    show FS.lookupFile (genList out cs fs) (stubPath q out) ≠ none
    unfold FS.lookupFile
    rw [genList_eq_foldl]
    exact foldl_mgen_lookup out (leavesList cs) fs q hq
  · intro cs out fs h
    exact genListE_err out cs fs (listBrokenE_fails cs h)

/-- A plain function member `add` with signature `(a, b=1)`. -/
def addMember : PyMember :=
  ⟨false, true, false, false, "", "(a, b=1)", "function", "builtins"⟩

/-- A leaf module `mypkg.alpha` with one function member. -/
def leafMod : PyModule := ⟨"mypkg.alpha", "mypkg", [("add", addMember)]⟩

/-- The root package `mypkg`. -/
def rootMod : PyModule := ⟨"mypkg", "mypkg", []⟩

/-- Witness for C8 at a one-leaf package and a one-broken-import forest. -/
theorem c8_walk_structure_witness :
    leafMod ∈ leavesList [ModTree.leaf leafMod] ∧
      FS.lookupFile (genStubs (ModTree.pkg rootMod [ModTree.leaf leafMod]) ["dist"] ⟨[], []⟩)
          (stubPath leafMod ["dist"]) ≠ none ∧
      listBrokenE [ModTreeE.broken "ImportError"] = true ∧
      (∃ e, genListE ["dist"] [ModTreeE.broken "ImportError"] ⟨[], []⟩ = Except.error e) := by
  have h1 : leafMod ∈ leavesList [ModTree.leaf leafMod] := by
    simp [leavesList]
  have h3 : listBrokenE [ModTreeE.broken "ImportError"] = true := by
    simp [listBrokenE, treeBrokenE]
  exact ⟨h1,
    c8_walk_structure.2.1 rootMod [ModTree.leaf leafMod] ["dist"] ⟨[], []⟩ leafMod h1,
    h3,
    c8_walk_structure.2.2 [ModTreeE.broken "ImportError"] ["dist"] ⟨[], []⟩ h3⟩

/-- A pre-existing output directory holding an unrelated stale file. -/
def fs4 : FS := ⟨[["dist"]], [(["dist", "stale.txt"], "old stale content")]⟩

/-- Witness for C4: a run over `fs4` with flush enabled; the stub file of the
single leaf is present afterwards and is (as the theorem forces) one of the
stub paths — while the stale file would fail the hypothesis, having been
deleted. -/
theorem c4_flush_only_fresh_witness :
    fs4.pathExists ["dist"] = true ∧
      pathUnder ["dist"] (stubPath leafMod ["dist"]) = true ∧
      FS.lookupFile
          (StubGenerator.generate ⟨ModTree.pkg rootMod [ModTree.leaf leafMod]⟩ ["dist"] true fs4)
          (stubPath leafMod ["dist"]) ≠ none ∧
      stubPath leafMod ["dist"] ∈
        (leavesList [ModTree.leaf leafMod]).map (fun q => stubPath q ["dist"]) := by
  have h1 : fs4.pathExists ["dist"] = true := by decide
  have h2 : pathUnder ["dist"] (stubPath leafMod ["dist"]) = true := by decide
  have h3 : FS.lookupFile
      (StubGenerator.generate ⟨ModTree.pkg rootMod [ModTree.leaf leafMod]⟩ ["dist"] true fs4)
      (stubPath leafMod ["dist"]) ≠ none := by
    rw [sg_generate_eq]
    show FS.lookupFile (genList ["dist"] [ModTree.leaf leafMod] _) _ ≠ none
    unfold FS.lookupFile
    rw [genList_eq_foldl]
    apply foldl_mgen_lookup
    simp [leavesList]
  exact ⟨h1, h2, h3,
    c4_flush_only_fresh rootMod [ModTree.leaf leafMod] ["dist"] fs4
      (stubPath leafMod ["dist"]) h1 h2 h3⟩

/-- Witness for C5 at the same concrete run. -/
theorem c5_idempotent_witness :
    fs4.pathExists ["dist"] = true ∧
      (StubGenerator.generate ⟨ModTree.pkg rootMod [ModTree.leaf leafMod]⟩ ["dist"] true
          (StubGenerator.generate ⟨ModTree.pkg rootMod [ModTree.leaf leafMod]⟩ ["dist"] true fs4)).files =
        (StubGenerator.generate ⟨ModTree.pkg rootMod [ModTree.leaf leafMod]⟩ ["dist"] true fs4).files :=
  ⟨by decide, c5_idempotent rootMod [ModTree.leaf leafMod] ["dist"] fs4 (by decide)⟩

/-- A filesystem without the output directory. -/
def fs9 : FS := ⟨[["other"]], [(["other", "keep.txt"], "keep")]⟩

/-- Witness for C9: flush requested on a missing output directory. -/
theorem c9_flush_missing_noop_witness :
    fs9.pathExists ["dist"] = false ∧
      StubGenerator.generate ⟨ModTree.pkg rootMod [ModTree.leaf leafMod]⟩ ["dist"] true fs9 =
        StubGenerator.generate ⟨ModTree.pkg rootMod [ModTree.leaf leafMod]⟩ ["dist"] false fs9 :=
  ⟨by decide,
   c9_flush_missing_noop ⟨ModTree.pkg rootMod [ModTree.leaf leafMod]⟩ ["dist"] fs9 (by decide)⟩
